import Mathlib

/-!
Verification of `lms/djangoapps/verify_student/api.py`: a shallow embedding of
the module's data model and its three operations (`send_approval_email`,
`create_verification_attempt`, `update_verification_attempt_status`), with
theorems settling the specification's claims about them.

The database of `VerificationAttempt` records is embedded as an association
list from record ids to records together with the next auto-assigned id;
Django ORM calls (`objects.create`, `objects.get`, `save`) become explicit
state-passing operations on this structure. Python exceptions become `Except`
error results paired with the (unchanged) database state.
-/

set_option autoImplicit false

deriving instance DecidableEq for Except

namespace VerifyStudent

/-- A user profile. Only the `name` attribute is read by the module
(`attempt.user.profile.name`). -/
structure Profile where
  name : String
deriving DecidableEq

/-- A Django user. The module reads `user.email` and `user.profile`. -/
structure User where
  email : String
  profile : Profile
deriving DecidableEq

/-- A calendar date, the result of Python's `datetime.date()`. -/
structure Date where
  year : Nat
  month : Nat
  day : Nat
deriving DecidableEq

/-- A Python `datetime`: a date together with a time of day. -/
structure Datetime where
  year : Nat
  month : Nat
  day : Nat
  hour : Nat
  minute : Nat
  second : Nat
deriving DecidableEq

/-- Python's `datetime.date()`: project the calendar date. -/
def Datetime.date (dt : Datetime) : Date :=
  { year := dt.year, month := dt.month, day := dt.day }

/-- Left-pad the decimal rendering of `n` with zeros to width `w`. -/
def padZero (w : Nat) (n : Nat) : String :=
  let s := toString n
  String.mk (List.replicate (w - s.length) '0') ++ s

/-- Python's `date.strftime("%m/%d/%Y")`: zero-padded month and day and a
four-digit year, separated by slashes. -/
def Date.strftime_mdY (d : Date) : String :=
  padZero 2 d.month ++ "/" ++ padZero 2 d.day ++ "/" ++ padZero 4 d.year

/-- Modelled from the spec: the `VerificationAttempt` record type (declared in
`models.py`, which is not among the sources). Per the spec it has "fields for
owning user, name, status (one of a small fixed enumeration), and an optional
expiration timestamp". -/
structure VerificationAttempt where
  user : User
  name : String
  status : String
  expiration_datetime : Option Datetime
deriving DecidableEq

/-- Modelled from the spec: the fixed set of allowed enum values of the
`VerificationAttemptStatus` class (declared in `statuses.py`, which is not
among the sources). The spec calls it "a small fixed enumeration" and the
module's tests fix it: `created`, `pending`, `approved` and `denied` are
members, while `completed`, `failed`, `submitted` and `expired` are not.
`update_verification_attempt_status` computes this list as the non-dunder
attributes of the class, which Python's `dir` returns in sorted order. -/
def VerificationAttemptStatus.status_list : List String :=
  ["approved", "created", "denied", "pending"]

/-- The Python exceptions the module can raise: the module's own
`VerificationAttemptInvalidStatus`, the ORM's `VerificationAttempt.DoesNotExist`,
and the `AttributeError` raised by calling `.date()` on `None`. -/
inductive PyException where
  | VerificationAttemptInvalidStatus
  | DoesNotExist
  | AttributeError
deriving DecidableEq

/-- The stored table of `VerificationAttempt` records: rows keyed by id, plus
the next id the ORM will auto-assign on creation. -/
structure DB where
  records : List (Nat × VerificationAttempt)
  next_id : Nat
deriving DecidableEq

/-- First value bound to key `i` in an association list. -/
def findVal (l : List (Nat × VerificationAttempt)) (i : Nat) : Option VerificationAttempt :=
  (l.find? (fun p => p.1 == i)).map Prod.snd

/-- Replace the value bound to key `i`. -/
def setEntry (l : List (Nat × VerificationAttempt)) (i : Nat) (b : VerificationAttempt) :
    List (Nat × VerificationAttempt) :=
  l.map (fun p => if p.1 = i then (i, b) else p)

/-- `VerificationAttempt.objects.get(id=i)`, as a partial lookup. -/
def DB.lookup (db : DB) (i : Nat) : Option VerificationAttempt :=
  findVal db.records i

/-- `attempt.save()` for an attempt with primary key `i`: overwrite that row. -/
def DB.set (db : DB) (i : Nat) (b : VerificationAttempt) : DB :=
  { db with records := setEntry db.records i b }

/-- Well-formed table: every stored id is below the next auto-assigned id
(as holds for Django auto-increment primary keys). -/
def DB.wf (db : DB) : Prop :=
  ∀ p ∈ db.records, p.1 < db.next_id

/-- The settings the module reads: `settings.PLATFORM_NAME` and the truthiness
of `settings.VERIFY_STUDENT.get('USE_DJANGO_MAIL')`. -/
structure Settings where
  platform_name : String
  use_django_mail : Bool
deriving DecidableEq

/-- The `verification_status_email_vars` dict as completed in the
`USE_DJANGO_MAIL` branch of `send_approval_email`. -/
structure EmailVars where
  platform_name : String
  expiration_datetime : String
  full_name : String
deriving DecidableEq

/-- The `context` dict handed to `send_verification_status_email.delay`. -/
structure TaskContext where
  subject : String
  template : String
  email : String
  email_vars : EmailVars
deriving DecidableEq

/-- The `email_context` dict handed to `send_verification_approved_email`. -/
structure ApprovedEmailContext where
  user : User
  expiration_datetime : String
deriving DecidableEq

/-- The single email-dispatch effect `send_approval_email` performs: either the
asynchronous task-queue backend (`send_verification_status_email.delay`) or the
direct call to `send_verification_approved_email`. -/
inductive EmailDispatch where
  | delay_task (context : TaskContext)
  | direct_send (context : ApprovedEmailContext)
deriving DecidableEq

/-- `send_approval_email(attempt)`. The source reads
`attempt.expiration_datetime.date()` unconditionally (an `AttributeError` when
the field is `None`), then branches on `settings.VERIFY_STUDENT.get('USE_DJANGO_MAIL')`:
the truthy branch builds the subject (via `gettext`, the identity here) and the
task context and dispatches through the task queue; the falsy branch calls
`send_verification_approved_email` directly. Both format the expiration date
with `strftime("%m/%d/%Y")`. -/
def send_approval_email (settings : Settings) (attempt : VerificationAttempt) :
    Except PyException EmailDispatch :=
  match attempt.expiration_datetime with
  | none => Except.error PyException.AttributeError
  | some dt =>
    let expiration_datetime := dt.date
    if settings.use_django_mail then
      Except.ok (EmailDispatch.delay_task
        { subject := "Your " ++ settings.platform_name ++ " ID verification was approved!"
          template := "emails/passed_verification_email.txt"
          email := attempt.user.email
          email_vars :=
            { platform_name := settings.platform_name
              expiration_datetime := expiration_datetime.strftime_mdY
              full_name := attempt.user.profile.name } })
    else
      Except.ok (EmailDispatch.direct_send
        { user := attempt.user
          expiration_datetime := expiration_datetime.strftime_mdY })

/-- `send_approval_email` threaded through the database state. The source
function performs no ORM operation at all, so the state passes through
untouched; this form exists so that frame properties over all three module
operations can be stated uniformly. -/
def send_approval_email_db (settings : Settings) (attempt : VerificationAttempt) (db : DB) :
    Except PyException EmailDispatch × DB :=
  (send_approval_email settings attempt, db)

/-- `create_verification_attempt(user, name, status, expiration_datetime=None)`:
`VerificationAttempt.objects.create(...)` inserts a fresh row with the given
field values and auto-assigns the next id, which the function returns. -/
def create_verification_attempt (db : DB) (user : User) (name : String) (status : String)
    (expiration_datetime : Option Datetime) : Nat × DB :=
  let i := db.next_id
  (i, { records := db.records ++
          [(i, { user := user, name := name, status := status,
                 expiration_datetime := expiration_datetime })]
        next_id := i + 1 })

/-- `create_verification_attempt` with the optional `expiration_datetime`
argument omitted: Python's default supplies `None`. -/
def create_verification_attempt_default (db : DB) (user : User) (name : String)
    (status : String) : Nat × DB :=
  create_verification_attempt db user name status none

/-- `update_verification_attempt_status(attempt_id, status)`. The source first
checks `status` against `status_list` and raises `VerificationAttemptInvalidStatus`
when it is not a member; then it looks the attempt up by id, re-raising
`VerificationAttempt.DoesNotExist` when absent; finally it assigns the status
and saves. It returns `None` (`Except.ok ()` here). -/
def update_verification_attempt_status (db : DB) (attempt_id : Nat) (status : String) :
    Except PyException Unit × DB :=
  if status ∈ VerificationAttemptStatus.status_list then
    match db.lookup attempt_id with
    | none => (Except.error PyException.DoesNotExist, db)
    | some attempt =>
      (Except.ok (), db.set attempt_id { attempt with status := status })
  else
    (Except.error PyException.VerificationAttemptInvalidStatus, db)

/-- The data-model invariant claimed by the spec: every stored record's status
is a member of the fixed enumeration. -/
def statuses_in_enum (db : DB) : Prop :=
  ∀ p ∈ db.records, p.2.status ∈ VerificationAttemptStatus.status_list

/-! ### Concrete fixtures -/

def sampleUser : User := { email := "tester@example.com", profile := { name := "Tester McTest" } }

def sampleDatetime : Datetime :=
  { year := 2024, month := 12, day := 31, hour := 0, minute := 0, second := 0 }

def sampleAttempt : VerificationAttempt :=
  { user := sampleUser, name := "Tester McTest", status := "created",
    expiration_datetime := some sampleDatetime }

def sampleAttemptNoExpiration : VerificationAttempt :=
  { sampleAttempt with expiration_datetime := none }

def sampleDB : DB := { records := [(1, sampleAttempt)], next_id := 2 }

/-! ### Association-list lemmas -/

theorem findVal_nil (i : Nat) : findVal [] i = none := rfl

theorem findVal_cons (k : Nat) (v : VerificationAttempt) (t : List (Nat × VerificationAttempt))
    (i : Nat) : findVal ((k, v) :: t) i = if k = i then some v else findVal t i := by
  by_cases h : k = i
  · simp [findVal, List.find?, h]
  · have hb : (k == i) = false := by simpa using h
    simp [findVal, List.find?, h, hb]

theorem setEntry_nil (i : Nat) (b : VerificationAttempt) : setEntry [] i b = [] := rfl

theorem setEntry_cons (k : Nat) (v : VerificationAttempt) (t : List (Nat × VerificationAttempt))
    (i : Nat) (b : VerificationAttempt) :
    setEntry ((k, v) :: t) i b = (if k = i then (i, b) else (k, v)) :: setEntry t i b := rfl

theorem mem_setEntry {l : List (Nat × VerificationAttempt)} {i : Nat} {b : VerificationAttempt}
    {p : Nat × VerificationAttempt} (hp : p ∈ setEntry l i b) : p = (i, b) ∨ p ∈ l := by
  rcases List.mem_map.1 hp with ⟨q, hq, rfl⟩
  by_cases h : q.1 = i
  · exact Or.inl (by simp [h])
  · exact Or.inr (by simpa [h] using hq)

theorem findVal_setEntry_self {l : List (Nat × VerificationAttempt)} {i : Nat}
    {a : VerificationAttempt} (b : VerificationAttempt) (h : findVal l i = some a) :
    findVal (setEntry l i b) i = some b := by
  induction l with
  | nil => simp [findVal_nil] at h
  | cons p t ih =>
    rcases p with ⟨k, v⟩
    by_cases hk : k = i
    · subst hk
      simp [setEntry_cons, findVal_cons]
    · rw [findVal_cons, if_neg hk] at h
      rw [setEntry_cons, if_neg hk, findVal_cons, if_neg hk]
      exact ih h

theorem findVal_setEntry_ne (l : List (Nat × VerificationAttempt)) (i : Nat)
    (b : VerificationAttempt) (j : Nat) (hj : j ≠ i) :
    findVal (setEntry l i b) j = findVal l j := by
  induction l with
  | nil => rfl
  | cons p t ih =>
    rcases p with ⟨k, v⟩
    by_cases hk : k = i
    · subst hk
      rw [setEntry_cons, if_pos rfl, findVal_cons, findVal_cons,
        if_neg (fun h => hj h.symm), if_neg (fun h => hj h.symm)]
      exact ih
    · rw [setEntry_cons, if_neg hk, findVal_cons, findVal_cons]
      by_cases hkj : k = j <;> simp [hkj, ih]

theorem findVal_append_of_some {l₁ : List (Nat × VerificationAttempt)}
    (l₂ : List (Nat × VerificationAttempt)) {i : Nat} {a : VerificationAttempt}
    (h : findVal l₁ i = some a) : findVal (l₁ ++ l₂) i = some a := by
  induction l₁ with
  | nil => simp [findVal_nil] at h
  | cons p t ih =>
    rcases p with ⟨k, v⟩
    by_cases hk : k = i
    · rw [findVal_cons, if_pos hk] at h
      rw [List.cons_append, findVal_cons, if_pos hk]
      exact h
    · rw [findVal_cons, if_neg hk] at h
      rw [List.cons_append, findVal_cons, if_neg hk]
      exact ih h

theorem findVal_append_of_none {l₁ : List (Nat × VerificationAttempt)}
    (l₂ : List (Nat × VerificationAttempt)) {i : Nat} (h : findVal l₁ i = none) :
    findVal (l₁ ++ l₂) i = findVal l₂ i := by
  induction l₁ with
  | nil => rfl
  | cons p t ih =>
    rcases p with ⟨k, v⟩
    by_cases hk : k = i
    · rw [findVal_cons, if_pos hk] at h
      simp at h
    · rw [findVal_cons, if_neg hk] at h
      rw [List.cons_append, findVal_cons, if_neg hk]
      exact ih h

theorem findVal_eq_none_of_lt {l : List (Nat × VerificationAttempt)} {n : Nat}
    (h : ∀ p ∈ l, p.1 < n) : findVal l n = none := by
  induction l with
  | nil => rfl
  | cons p t ih =>
    rcases p with ⟨k, v⟩
    have hk : k < n := h (k, v) (List.mem_cons_self _ _)
    rw [findVal_cons, if_neg (Nat.ne_of_lt hk)]
    exact ih (fun q hq => h q (List.mem_cons_of_mem _ hq))

theorem DB.lookup_set_self {db : DB} {i : Nat} {a : VerificationAttempt}
    (b : VerificationAttempt) (h : db.lookup i = some a) : (db.set i b).lookup i = some b :=
  findVal_setEntry_self b h

theorem DB.lookup_set_ne (db : DB) (i : Nat) (b : VerificationAttempt) (j : Nat) (hj : j ≠ i) :
    (db.set i b).lookup j = db.lookup j :=
  findVal_setEntry_ne db.records i b j hj

/-! ### Characterisation lemmas for the module operations -/

theorem update_lookup_ne (db : DB) (attempt_id : Nat) (status : String) (j : Nat)
    (hj : j ≠ attempt_id) :
    ((update_verification_attempt_status db attempt_id status).2).lookup j = db.lookup j := by
  by_cases hv : status ∈ VerificationAttemptStatus.status_list
  · cases hl : db.lookup attempt_id with
    | none => simp [update_verification_attempt_status, hv, hl]
    | some a => simp [update_verification_attempt_status, hv, hl, DB.lookup_set_ne db _ _ _ hj]
  · simp [update_verification_attempt_status, hv]

theorem update_next_id (db : DB) (attempt_id : Nat) (status : String) :
    ((update_verification_attempt_status db attempt_id status).2).next_id = db.next_id := by
  by_cases hv : status ∈ VerificationAttemptStatus.status_list
  · cases hl : db.lookup attempt_id with
    | none => simp [update_verification_attempt_status, hv, hl]
    | some a => simp [update_verification_attempt_status, hv, hl, DB.set]
  · simp [update_verification_attempt_status, hv]

theorem update_of_valid_found {db : DB} {attempt_id : Nat} {status : String}
    {a : VerificationAttempt} (hs : status ∈ VerificationAttemptStatus.status_list)
    (hl : db.lookup attempt_id = some a) :
    update_verification_attempt_status db attempt_id status =
      (Except.ok (), db.set attempt_id { a with status := status }) := by
  simp [update_verification_attempt_status, hs, hl]

/-! ### Claims -/

/-- C1: for every status string outside the fixed set of allowed enum values,
`update_verification_attempt_status` raises `VerificationAttemptInvalidStatus`
and the stored state is returned unchanged; since this holds for every database
state, the result does not depend on (read) any stored record. -/
theorem update_verification_attempt_status_invalid (db : DB) (attempt_id : Nat) (status : String)
    (h : status ∉ VerificationAttemptStatus.status_list) :
    update_verification_attempt_status db attempt_id status =
      (Except.error PyException.VerificationAttemptInvalidStatus, db) := by
  simp [update_verification_attempt_status, h]

/-- C1 witness: the invalid status `submitted` on the sample database. -/
theorem update_verification_attempt_status_invalid_witness :
    "submitted" ∉ VerificationAttemptStatus.status_list ∧
    update_verification_attempt_status sampleDB 1 "submitted" =
      (Except.error PyException.VerificationAttemptInvalidStatus, sampleDB) :=
  ⟨by decide, update_verification_attempt_status_invalid sampleDB 1 "submitted" (by decide)⟩

/-- C8: the status check precedes the attempt lookup: for an invalid status the
call raises `VerificationAttemptInvalidStatus` even when no record with the
given id exists, and (second conjunct) the same outcome results on every
database state, so the database is not consulted. -/
theorem update_verification_attempt_status_checks_status_first (db : DB) (attempt_id : Nat)
    (status : String) (h : status ∉ VerificationAttemptStatus.status_list)
    (_hn : db.lookup attempt_id = none) :
    update_verification_attempt_status db attempt_id status =
      (Except.error PyException.VerificationAttemptInvalidStatus, db) ∧
    ∀ db2 : DB, update_verification_attempt_status db2 attempt_id status =
      (Except.error PyException.VerificationAttemptInvalidStatus, db2) := by
  constructor
  · simp [update_verification_attempt_status, h]
  · intro db2
    simp [update_verification_attempt_status, h]

/-- C8 witness: the invalid status `completed` at an id absent from the sample
database. -/
theorem update_verification_attempt_status_checks_status_first_witness :
    "completed" ∉ VerificationAttemptStatus.status_list ∧
    sampleDB.lookup 999999 = none ∧
    update_verification_attempt_status sampleDB 999999 "completed" =
      (Except.error PyException.VerificationAttemptInvalidStatus, sampleDB) :=
  ⟨by decide, by decide,
    (update_verification_attempt_status_checks_status_first sampleDB 999999 "completed"
      (by decide) (by decide)).1⟩

/-- C9: for a valid status and an id with no stored record, the call raises
`VerificationAttempt.DoesNotExist` and the stored state is unchanged (no record
is created or modified). -/
theorem update_verification_attempt_status_not_found (db : DB) (attempt_id : Nat)
    (status : String) (hs : status ∈ VerificationAttemptStatus.status_list)
    (hn : db.lookup attempt_id = none) :
    update_verification_attempt_status db attempt_id status =
      (Except.error PyException.DoesNotExist, db) := by
  simp [update_verification_attempt_status, hs, hn]

/-- C9 witness: the valid status `approved` at the absent id 999999, as in the
module's own test. -/
theorem update_verification_attempt_status_not_found_witness :
    "approved" ∈ VerificationAttemptStatus.status_list ∧
    sampleDB.lookup 999999 = none ∧
    update_verification_attempt_status sampleDB 999999 "approved" =
      (Except.error PyException.DoesNotExist, sampleDB) :=
  ⟨by decide, by decide,
    update_verification_attempt_status_not_found sampleDB 999999 "approved"
      (by decide) (by decide)⟩

/-- C10: `send_approval_email` requires `attempt.expiration_datetime` to be
non-`None`: it calls `.date()` on it before branching, so with `None` the call
fails with an `AttributeError` for every settings configuration and no email is
dispatched through either backend. -/
theorem send_approval_email_none_expiration (settings : Settings)
    (attempt : VerificationAttempt) (h : attempt.expiration_datetime = none) :
    send_approval_email settings attempt = Except.error PyException.AttributeError := by
  simp [send_approval_email, h]

/-- C10 witness: an attempt with no expiration datetime, under both settings
values. -/
theorem send_approval_email_none_expiration_witness :
    sampleAttemptNoExpiration.expiration_datetime = none ∧
    send_approval_email { platform_name := "édX", use_django_mail := true }
        sampleAttemptNoExpiration = Except.error PyException.AttributeError ∧
    send_approval_email { platform_name := "édX", use_django_mail := false }
        sampleAttemptNoExpiration = Except.error PyException.AttributeError :=
  ⟨rfl,
    send_approval_email_none_expiration _ sampleAttemptNoExpiration rfl,
    send_approval_email_none_expiration _ sampleAttemptNoExpiration rfl⟩

/-- C4: for an existing attempt id and a valid status, the call stores the
given status on the addressed record, persists it (the lookup after the call
returns the updated record), and returns `None` (`Except.ok ()`). -/
theorem update_verification_attempt_status_valid (db : DB) (attempt_id : Nat) (status : String)
    (a : VerificationAttempt) (hs : status ∈ VerificationAttemptStatus.status_list)
    (hl : db.lookup attempt_id = some a) :
    (update_verification_attempt_status db attempt_id status).1 = Except.ok () ∧
    ((update_verification_attempt_status db attempt_id status).2).lookup attempt_id =
      some { a with status := status } := by
  rw [update_of_valid_found hs hl]
  exact ⟨rfl, DB.lookup_set_self _ hl⟩

/-- C4 witness: updating the sample attempt to `approved`. -/
theorem update_verification_attempt_status_valid_witness :
    (update_verification_attempt_status sampleDB 1 "approved").1 = Except.ok () ∧
    ((update_verification_attempt_status sampleDB 1 "approved").2).lookup 1 =
      some { sampleAttempt with status := "approved" } :=
  update_verification_attempt_status_valid sampleDB 1 "approved" sampleAttempt
    (by decide) (by decide)

/-- C3: for an existing attempt id and a valid status the update is frame-bound
to the status field of the addressed record: the stored record keeps its user,
name and expiration_datetime, every other id maps to the same record as before,
and the next auto-assigned id is unchanged. -/
theorem update_verification_attempt_status_frame (db : DB) (attempt_id : Nat) (status : String)
    (a : VerificationAttempt) (hs : status ∈ VerificationAttemptStatus.status_list)
    (hl : db.lookup attempt_id = some a) :
    (∃ b : VerificationAttempt,
      ((update_verification_attempt_status db attempt_id status).2).lookup attempt_id = some b ∧
      b.user = a.user ∧ b.name = a.name ∧ b.expiration_datetime = a.expiration_datetime) ∧
    (∀ j : Nat, j ≠ attempt_id →
      ((update_verification_attempt_status db attempt_id status).2).lookup j = db.lookup j) ∧
    ((update_verification_attempt_status db attempt_id status).2).next_id = db.next_id := by
  refine ⟨⟨{ a with status := status }, ?_, rfl, rfl, rfl⟩, ?_, update_next_id db attempt_id status⟩
  · rw [update_of_valid_found hs hl]
    exact DB.lookup_set_self _ hl
  · intro j hj
    exact update_lookup_ne db attempt_id status j hj

/-- C3 witness: updating the sample attempt to `denied` leaves its other fields
and the rest of the table unchanged. -/
theorem update_verification_attempt_status_frame_witness :
    (∃ b : VerificationAttempt,
      ((update_verification_attempt_status sampleDB 1 "denied").2).lookup 1 = some b ∧
      b.user = sampleAttempt.user ∧ b.name = sampleAttempt.name ∧
      b.expiration_datetime = sampleAttempt.expiration_datetime) ∧
    (∀ j : Nat, j ≠ 1 →
      ((update_verification_attempt_status sampleDB 1 "denied").2).lookup j = sampleDB.lookup j) ∧
    ((update_verification_attempt_status sampleDB 1 "denied").2).next_id = sampleDB.next_id :=
  update_verification_attempt_status_frame sampleDB 1 "denied" sampleAttempt
    (by decide) (by decide)

/-- C5: on a well-formed table, `create_verification_attempt` returns a fresh
id (no record existed under it), stores under it exactly the record built from
the given arguments, leaves every other id unchanged, grows the table by
exactly one row, and omitting the optional argument is the same call with
`expiration_datetime = None`. -/
theorem create_verification_attempt_spec (db : DB) (u : User) (n s : String)
    (e : Option Datetime) (hwf : DB.wf db) :
    db.lookup (create_verification_attempt db u n s e).1 = none ∧
    ((create_verification_attempt db u n s e).2).lookup (create_verification_attempt db u n s e).1 =
      some { user := u, name := n, status := s, expiration_datetime := e } ∧
    (∀ j : Nat, j ≠ (create_verification_attempt db u n s e).1 →
      ((create_verification_attempt db u n s e).2).lookup j = db.lookup j) ∧
    ((create_verification_attempt db u n s e).2).records.length = db.records.length + 1 ∧
    create_verification_attempt_default db u n s = create_verification_attempt db u n s none := by
  have hfresh : db.lookup db.next_id = none := findVal_eq_none_of_lt hwf
  refine ⟨hfresh, ?_, ?_, by simp [create_verification_attempt], rfl⟩
  · show findVal (db.records ++ [(db.next_id, _)]) db.next_id = _
    rw [findVal_append_of_none _ hfresh, findVal_cons, if_pos rfl]
  · intro j hj
    show findVal (db.records ++ [(db.next_id, _)]) j = _
    cases hcur : findVal db.records j with
    | some a => rw [findVal_append_of_some _ hcur]; exact hcur.symm
    | none =>
      rw [findVal_append_of_none _ hcur, findVal_cons, if_neg (fun h => hj h.symm), findVal_nil]
      exact hcur.symm

/-- C5 witness: creating a second attempt in the sample database. -/
theorem create_verification_attempt_spec_witness :
    sampleDB.lookup (create_verification_attempt sampleDB sampleUser "Tester McTest" "created"
      (some sampleDatetime)).1 = none ∧
    ((create_verification_attempt sampleDB sampleUser "Tester McTest" "created"
      (some sampleDatetime)).2).lookup
      (create_verification_attempt sampleDB sampleUser "Tester McTest" "created"
        (some sampleDatetime)).1 =
      some { user := sampleUser, name := "Tester McTest", status := "created",
             expiration_datetime := some sampleDatetime } ∧
    (∀ j : Nat, j ≠ (create_verification_attempt sampleDB sampleUser "Tester McTest" "created"
        (some sampleDatetime)).1 →
      ((create_verification_attempt sampleDB sampleUser "Tester McTest" "created"
        (some sampleDatetime)).2).lookup j = sampleDB.lookup j) ∧
    ((create_verification_attempt sampleDB sampleUser "Tester McTest" "created"
      (some sampleDatetime)).2).records.length = sampleDB.records.length + 1 ∧
    create_verification_attempt_default sampleDB sampleUser "Tester McTest" "created" =
      create_verification_attempt sampleDB sampleUser "Tester McTest" "created" none :=
  create_verification_attempt_spec sampleDB sampleUser "Tester McTest" "created"
    (some sampleDatetime) (by unfold DB.wf; decide)

/-- C6: with a non-`None` expiration, `send_approval_email` performs exactly one
dispatch, chosen by `settings.VERIFY_STUDENT['USE_DJANGO_MAIL']`: when truthy it
hands the full task context to the asynchronous task queue
(`send_verification_status_email.delay`), otherwise it calls
`send_verification_approved_email` directly; in both cases the expiration date
passed along is the attempt's expiration datetime formatted `"%m/%d/%Y"`. -/
theorem send_approval_email_backend_choice (settings : Settings)
    (attempt : VerificationAttempt) (dt : Datetime)
    (h : attempt.expiration_datetime = some dt) :
    (settings.use_django_mail = true →
      send_approval_email settings attempt = Except.ok (EmailDispatch.delay_task
        { subject := "Your " ++ settings.platform_name ++ " ID verification was approved!"
          template := "emails/passed_verification_email.txt"
          email := attempt.user.email
          email_vars :=
            { platform_name := settings.platform_name
              expiration_datetime := dt.date.strftime_mdY
              full_name := attempt.user.profile.name } })) ∧
    (settings.use_django_mail = false →
      send_approval_email settings attempt = Except.ok (EmailDispatch.direct_send
        { user := attempt.user
          expiration_datetime := dt.date.strftime_mdY })) := by
  constructor
  · intro hm
    simp [send_approval_email, h, hm]
  · intro hm
    simp [send_approval_email, h, hm]

/-- C6 witness: the sample attempt (expiring 2024-12-31) under each backend
setting; the date is passed as the string `12/31/2024`. -/
theorem send_approval_email_backend_choice_witness :
    send_approval_email { platform_name := "édX", use_django_mail := true } sampleAttempt =
      Except.ok (EmailDispatch.delay_task
        { subject := "Your édX ID verification was approved!"
          template := "emails/passed_verification_email.txt"
          email := "tester@example.com"
          email_vars :=
            { platform_name := "édX"
              expiration_datetime := "12/31/2024"
              full_name := "Tester McTest" } }) ∧
    send_approval_email { platform_name := "édX", use_django_mail := false } sampleAttempt =
      Except.ok (EmailDispatch.direct_send
        { user := sampleUser
          expiration_datetime := "12/31/2024" }) := by
  constructor
  · have h := (send_approval_email_backend_choice
      { platform_name := "édX", use_django_mail := true } sampleAttempt sampleDatetime rfl).1 rfl
    rw [h]
    rfl
  · have h := (send_approval_email_backend_choice
      { platform_name := "édX", use_django_mail := false } sampleAttempt sampleDatetime rfl).2 rfl
    rw [h]
    rfl

/-- C7: no operation of the module deletes a record: every id holding a record
before a call to `create_verification_attempt` or
`update_verification_attempt_status` still holds a record afterwards, and
`send_approval_email` leaves the database untouched altogether. -/
theorem no_record_deletion :
    (∀ (db : DB) (u : User) (n s : String) (e : Option Datetime) (i : Nat),
      (∃ a, db.lookup i = some a) →
      ∃ b, ((create_verification_attempt db u n s e).2).lookup i = some b) ∧
    (∀ (db : DB) (attempt_id : Nat) (status : String) (i : Nat),
      (∃ a, db.lookup i = some a) →
      ∃ b, ((update_verification_attempt_status db attempt_id status).2).lookup i = some b) ∧
    (∀ (settings : Settings) (attempt : VerificationAttempt) (db : DB),
      (send_approval_email_db settings attempt db).2 = db) := by
  refine ⟨?_, ?_, fun _ _ _ => rfl⟩
  · rintro db u n s e i ⟨a, ha⟩
    exact ⟨a, findVal_append_of_some _ ha⟩
  · rintro db attempt_id status i ⟨a, ha⟩
    by_cases hv : status ∈ VerificationAttemptStatus.status_list
    · cases hl : db.lookup attempt_id with
      | none => exact ⟨a, by simpa [update_verification_attempt_status, hv, hl] using ha⟩
      | some c =>
        by_cases hij : i = attempt_id
        · subst hij
          refine ⟨{ c with status := status }, ?_⟩
          rw [update_of_valid_found hv hl]
          exact DB.lookup_set_self _ hl
        · exact ⟨a, by rw [update_lookup_ne db attempt_id status i hij]; exact ha⟩
    · exact ⟨a, by simpa [update_verification_attempt_status, hv] using ha⟩

/-- C7 witness: record 1 of the sample database survives a create, an update,
and an approval-email call. -/
theorem no_record_deletion_witness :
    (∃ b, ((create_verification_attempt sampleDB sampleUser "N" "created" none).2).lookup 1 =
      some b) ∧
    (∃ b, ((update_verification_attempt_status sampleDB 1 "approved").2).lookup 1 = some b) ∧
    (send_approval_email_db { platform_name := "édX", use_django_mail := true } sampleAttempt
      sampleDB).2 = sampleDB :=
  ⟨no_record_deletion.1 sampleDB sampleUser "N" "created" none 1 ⟨sampleAttempt, by decide⟩,
   no_record_deletion.2.1 sampleDB 1 "approved" 1 ⟨sampleAttempt, by decide⟩,
   no_record_deletion.2.2 _ sampleAttempt sampleDB⟩

/-- C2 counterexample: `create_verification_attempt` performs no status
validation, so it persists a record whose status (`submitted`) lies outside the
fixed enumeration, refuting the claim that no operation can persist such a
record. -/
theorem create_verification_attempt_persists_invalid_status :
    "submitted" ∉ VerificationAttemptStatus.status_list ∧
    ((create_verification_attempt sampleDB sampleUser "Tester McTest" "submitted" none).2).lookup
        (create_verification_attempt sampleDB sampleUser "Tester McTest" "submitted" none).1 =
      some { user := sampleUser, name := "Tester McTest", status := "submitted",
             expiration_datetime := none } := by
  decide

/-- C2 amended: `update_verification_attempt_status` preserves the invariant
that every stored status is in the enumeration (it only ever writes a validated
status), while `create_verification_attempt` persists exactly the status it is
given and therefore preserves the invariant only when that status is a member
of the enumeration. -/
theorem statuses_in_enum_invariant_amended :
    (∀ (db : DB) (attempt_id : Nat) (status : String), statuses_in_enum db →
      statuses_in_enum (update_verification_attempt_status db attempt_id status).2) ∧
    (∀ (db : DB) (u : User) (n status : String) (e : Option Datetime),
      statuses_in_enum db → status ∈ VerificationAttemptStatus.status_list →
      statuses_in_enum (create_verification_attempt db u n status e).2) := by
  constructor
  · intro db attempt_id status hdb
    by_cases hv : status ∈ VerificationAttemptStatus.status_list
    · cases hl : db.lookup attempt_id with
      | none => simpa [update_verification_attempt_status, hv, hl] using hdb
      | some a =>
        rw [update_of_valid_found hv hl]
        intro p hp
        rcases mem_setEntry hp with h1 | h2
        · rw [h1]
          exact hv
        · exact hdb p h2
    · simpa [update_verification_attempt_status, hv] using hdb
  · intro db u n status e hdb hs p hp
    rcases List.mem_append.1 hp with h1 | h2
    · exact hdb p h1
    · have h2' : p = (db.next_id,
          { user := u, name := n, status := status, expiration_datetime := e }) := by
        simpa using h2
      rw [h2']
      exact hs

/-- C2 amended witness: a valid update and a valid create on the sample
database keep every stored status inside the enumeration. -/
theorem statuses_in_enum_invariant_amended_witness :
    statuses_in_enum (update_verification_attempt_status sampleDB 1 "approved").2 ∧
    statuses_in_enum (create_verification_attempt sampleDB sampleUser "N" "pending" none).2 :=
  ⟨statuses_in_enum_invariant_amended.1 sampleDB 1 "approved"
      (by unfold statuses_in_enum; decide),
   statuses_in_enum_invariant_amended.2 sampleDB sampleUser "N" "pending" none
      (by unfold statuses_in_enum; decide) (by decide)⟩

end VerifyStudent
